import Mathlib

/-!
# Verification of the safe-calculator (`src/calculator001.py`)

The program parses an arithmetic expression with Python's `ast.parse`
(mode `'eval'`) and evaluates the resulting tree with a recursive
function `_eval` that whitelists node kinds and operators.

This file shallowly embeds that program:

* `PyAst` models the fragment of Python's expression AST that can reach
  `safe_eval`'s inner `_eval`: the arithmetic nodes plus the node kinds
  that `_eval` rejects (names, calls, attributes, subscripts,
  comparisons, boolean operators, collection displays).  Fields of the
  rejected node kinds are carried but never inspected, exactly as in the
  source, where `_eval` falls through to `_is_number` without looking at
  them.
* `PyVal` models the runtime values that can flow out of `_eval`:
  Python `int` (as `Int`), Python `float` (as `ℚ`, an exact-arithmetic
  stand-in: every literal and every operation appearing in the verified
  properties is exactly representable), and Python `bool` — which must
  be kept distinct because in Python `bool` is a subclass of `int`, so
  `isinstance(True, (int, float))` holds and `_is_number` returns the
  boolean unchanged.
* `is_number`, `evalAst`, `safe_eval_core`, `safe_eval` are translated
  from `_is_number`, `_eval` and `safe_eval` in the source.
* `ast_parse` stands in for Python's `ast.parse(expr, mode='eval')`,
  which is host-library code not present under `src/`; it is modelled
  from the spec's grammar (§4.1).
* `repl_step` is translated from the per-line body of the interactive
  loop (`repl`, lines 76–103 of the source; the `__main__` prompt loop
  has the identical shape).
-/

namespace Calculator

/-- Constant kinds storable in an `ast.Constant` node.  `float` is
modelled as `ℚ` (exact arithmetic). -/
inductive PyConst where
  | int (n : Int)
  | float (q : ℚ)
  | bool (b : Bool)
  | str (s : String)
  | pynone
  deriving DecidableEq, Repr

/-- Python's `ast` binary-operator kinds (`ast.Add`, `ast.Sub`, ...).
All kinds that `ast.parse` can emit for a `BinOp` are present, since the
source checks them at evaluation time. -/
inductive BinOpKind where
  | Add | Sub | Mult | Div | Mod | Pow
  | FloorDiv | LShift | RShift | BitOr | BitXor | BitAnd | MatMult
  deriving DecidableEq, Repr

/-- Python's `ast` unary-operator kinds. -/
inductive UnaryOpKind where
  | UAdd | USub | Invert | Not
  deriving DecidableEq, Repr

/-- The fragment of Python's expression AST reachable by `_eval`.
`Expression` is the `mode='eval'` wrapper.  The node kinds after
`Constant` are the ones `_eval` rejects via `_is_number`; their fields
are never read by the program. -/
inductive PyAst where
  | Expression (body : PyAst)
  | BinOp (left : PyAst) (op : BinOpKind) (right : PyAst)
  | UnaryOp (op : UnaryOpKind) (operand : PyAst)
  | Constant (value : PyConst)
  | Name (id : String)
  | Call (func : PyAst) (args : List PyAst)
  | Attribute (value : PyAst) (attr : String)
  | Subscript (value : PyAst) (index : PyAst)
  | Compare (left : PyAst) (comparators : List PyAst)
  | BoolOp (values : List PyAst)
  | ListLit (elts : List PyAst)
  | TupleLit (elts : List PyAst)
  | DictLit (keys : List PyAst) (values : List PyAst)

/-- Runtime values of the evaluator: Python `int`, `float` (as `ℚ`) and
`bool` (kept distinct: `_is_number` returns `True` unchanged because
`bool` is a subclass of `int` in Python). -/
inductive PyVal where
  | intV (n : Int)
  | floatV (q : ℚ)
  | boolV (b : Bool)
  deriving DecidableEq, Repr

/-- The exceptions the program can raise or observe.  `syntaxError`
models Python's `SyntaxError` class (raised by `ast.parse`, caught
inside `safe_eval`); `valueError` and `zeroDivisionError` model
`ValueError` and `ZeroDivisionError`.  `notRepresentable` is a modelling
boundary, not a Python exception: a power with a non-integral exponent
produces an irrational float in Python, which the exact-rational value
domain cannot represent; no verified property depends on such inputs. -/
inductive PyErr where
  | valueError (msg : String)
  | zeroDivisionError (msg : String)
  | syntaxError (msg : String)
  | notRepresentable (msg : String)
  deriving DecidableEq, Repr

/-- Is this error a `SyntaxError`? -/
def PyErr.isSyntaxErr : PyErr → Bool
  | .syntaxError _ => true
  | _ => false

/-- Numeric content of a value, as a rational (Python coerces `bool` to
`0`/`1` and `int` to `float` in mixed arithmetic). -/
def PyVal.toQ : PyVal → ℚ
  | .intV n => (n : ℚ)
  | .floatV q => q
  | .boolV b => if b then 1 else 0

/-- `some n` when the value is integer-like for Python's promotion rule
(an `int`, or a `bool`, which is a subclass of `int`); `none` for a
`float`. -/
def PyVal.asInt? : PyVal → Option Int
  | .intV n => some n
  | .floatV _ => none
  | .boolV b => some (if b then 1 else 0)

/-- Python's "exactly zero" test on the right operand of `/` and `%`
(`0`, `0.0` and `False` all raise `ZeroDivisionError`). -/
def PyVal.isZero (v : PyVal) : Bool := decide (v.toQ = 0)

/-- Integer power of a rational, with negative exponents via inversion
(kept as an explicit definition so that it evaluates by `decide`). -/
def qzpow (q : ℚ) (n : Int) : ℚ :=
  if 0 ≤ n then q ^ n.toNat else (q ^ (-n).toNat)⁻¹

/-- Python's int-preserving promotion: `int ⋄ int → int` (with `bool`
counting as `int`), otherwise `float`.  Used for `+`, `-`, `*`. -/
def promote (fi : Int → Int → Int) (fq : ℚ → ℚ → ℚ) (l r : PyVal) : PyVal :=
  match l.asInt?, r.asInt? with
  | some a, some b => .intV (fi a b)
  | _, _ => .floatV (fq l.toQ r.toQ)

/-- `left / right`: always real division, `ZeroDivisionError` on a zero
divisor (of any numeric type). -/
def pyDiv (l r : PyVal) : Except PyErr PyVal :=
  if r.toQ = 0 then .error (.zeroDivisionError "division by zero")
  else .ok (.floatV (l.toQ / r.toQ))

/-- Floor-based remainder on rationals: `a - b * ⌊a / b⌋` (the sign of
the result follows the divisor), matching Python's `%` on floats. -/
def qfmod (a b : ℚ) : ℚ := a - b * (⌊a / b⌋ : Int)

/-- `left % right`: Python's floored modulo; `Int.fmod` is exactly
Python's `%` on integers (sign follows the divisor). -/
def pyMod (l r : PyVal) : Except PyErr PyVal :=
  if r.toQ = 0 then .error (.zeroDivisionError "integer modulo by zero")
  else
    match l.asInt?, r.asInt? with
    | some a, some b => .ok (.intV (Int.fmod a b))
    | _, _ => .ok (.floatV (qfmod l.toQ r.toQ))

/-- `left ** right`: Python's power.  `int ** nonnegative int` stays an
`int`; `int ** negative int` is a `float` (`2 ** -2 == 0.25`), raising
`ZeroDivisionError` on a zero base.  With a `float` involved, an
integral exponent is computed exactly; a non-integral exponent is
irrational in general and is flagged `notRepresentable` (modelling
boundary, see `PyErr`). -/
def pyPow (l r : PyVal) : Except PyErr PyVal :=
  match l.asInt?, r.asInt? with
  | some a, some b =>
    if 0 ≤ b then .ok (.intV (a ^ b.toNat))
    else if a = 0 then .error (.zeroDivisionError "zero to a negative power")
    else .ok (.floatV (qzpow (a : ℚ) b))
  | _, _ =>
    let q := l.toQ
    let e := r.toQ
    if e.den = 1 then
      if q = 0 ∧ e.num < 0 then .error (.zeroDivisionError "zero to a negative power")
      else .ok (.floatV (qzpow q e.num))
    else .error (.notRepresentable "non-integral exponent")

/-- The binary-operator dispatch of `_eval` (source lines 47–59): the
six whitelisted operators, then `raise ValueError("Unsupported binary
operator")`. -/
def applyBin : BinOpKind → PyVal → PyVal → Except PyErr PyVal
  | .Add, l, r => .ok (promote (· + ·) (· + ·) l r)
  | .Sub, l, r => .ok (promote (· - ·) (· - ·) l r)
  | .Mult, l, r => .ok (promote (· * ·) (· * ·) l r)
  | .Div, l, r => pyDiv l r
  | .Mod, l, r => pyMod l r
  | .Pow, l, r => pyPow l r
  | _, _, _ => .error (.valueError "Unsupported binary operator")

/-- The unary-operator dispatch of `_eval` (source lines 62–68).
Python's unary `+`/`-` on a `bool` yields an `int` (`+True == 1`). -/
def applyUnary : UnaryOpKind → PyVal → Except PyErr PyVal
  | .UAdd, v =>
    .ok (match v.asInt? with
         | some n => .intV n
         | none => v)
  | .USub, v =>
    .ok (match v.asInt? with
         | some n => .intV (-n)
         | none => .floatV (-v.toQ))
  | _, _ => .error (.valueError "Unsupported unary operator")

/-- `_is_number` (source lines 16–25): return the value of an
`ast.Constant` holding an `int` or `float` — in Python `bool` is a
subclass of `int`, so `isinstance(True, (int, float))` holds and the
boolean is returned unchanged — otherwise `ValueError`.  (The legacy
`ast.Num` branch is dead on the Pythons that ship `ast.Constant`.) -/
def is_number : PyAst → Except PyErr PyVal
  | .Constant c =>
    match c with
    | .int n => .ok (.intV n)
    | .float q => .ok (.floatV q)
    | .bool b => .ok (.boolV b)
    | _ => .error (.valueError "Only numbers are allowed")
  | _ => .error (.valueError "Expected a numeric literal")

/-- `_eval` (source lines 38–71): unwrap `Expression`, evaluate `BinOp`
left-then-right and dispatch on the operator, evaluate `UnaryOp`, and
send every other node to `_is_number`. -/
def evalAst : PyAst → Except PyErr PyVal
  | .Expression body => evalAst body
  | .BinOp l op r =>
    match evalAst l with
    | .error e => .error e
    | .ok lv =>
      match evalAst r with
      | .error e => .error e
      | .ok rv => applyBin op lv rv
  | .UnaryOp op o =>
    match evalAst o with
    | .error e => .error e
    | .ok v => applyUnary op v
  | n => is_number n

/-- The `try/except` around `ast.parse` in `safe_eval` (source lines
33–36): a `SyntaxError` from parsing is re-raised as
`ValueError(f"Syntax error: {e}")`; a successful parse is handed to
`_eval`. -/
def safe_eval_core : Except String PyAst → Except PyErr PyVal
  | .error m => .error (.valueError ("Syntax error: " ++ m))
  | .ok t => evalAst t

end Calculator

namespace Calculator

/-! ## The parser

Python's `ast.parse` is host-library code, not part of `src/`; the
following tokenizer and recursive-descent parser are modelled from the
spec's grammar (§4.1).  Recursion is fuelled; the fuel handed out by
`ast_parse` is ample for every input the parser accepts. -/

/-- Tokens of the arithmetic grammar. -/
inductive Tok where
  | num (c : PyConst)
  | plus | minus | star | slash | percent | dstar | lparen | rparen
  deriving DecidableEq, Repr

/-- Split off a maximal run of decimal digits. -/
def takeDigits : List Char → List Char × List Char
  | [] => ([], [])
  | c :: cs =>
    if c.isDigit then
      let (d, r) := takeDigits cs
      (c :: d, r)
    else ([], c :: cs)

/-- Numeric value of a digit run. -/
def digitsToNat (ds : List Char) : Nat :=
  ds.foldl (fun a c => a * 10 + (c.toNat - 48)) 0

/-- Value of a fractional digit run `ds` read as `0.ds`. -/
def fracVal (ds : List Char) : ℚ :=
  (digitsToNat ds : ℚ) / (10 ^ ds.length)

/-- Modelled from the spec: the NUMBER token (§4.1) — "an integer or
decimal literal (optionally with exponent notation, e.g. `1e3`)", with
no embedded sign.  `ip` is the already-read run of integer digits
(nonempty); parses an optional fraction and exponent and yields an
`int` constant for a plain digit run, a `float` constant otherwise. -/
def lexNumTail (ip : List Char) (cs : List Char) : Except String (PyConst × List Char) :=
  let (isFloat, mant, rest) :=
    match cs with
    | '.' :: r2 =>
      let (fp, r3) := takeDigits r2
      (true, (digitsToNat ip : ℚ) + fracVal fp, r3)
    | _ => (false, ((digitsToNat ip : ℚ)), cs)
  match rest with
  | c :: r4 =>
    if c = 'e' ∨ c = 'E' then
      let (sgn, r5) : Int × List Char :=
        match r4 with
        | '+' :: r => (1, r)
        | '-' :: r => (-1, r)
        | r => (1, r)
      let (ed, r6) := takeDigits r5
      if ed.isEmpty then .error "invalid decimal literal"
      else .ok (.float (mant * qzpow 10 (sgn * (digitsToNat ed : Int))), r6)
    else if isFloat then .ok (.float mant, c :: r4)
    else .ok (.int (digitsToNat ip : Int), c :: r4)
  | [] =>
    if isFloat then .ok (.float mant, [])
    else .ok (.int (digitsToNat ip : Int), [])

/-- Modelled from the spec: the tokenizer for the grammar of §4.1
(numbers, `+ - * / % **`, parentheses, internal whitespace tolerated;
any other character — in particular any alphabetic character outside an
exponent marker — is a syntax error). -/
def lexAux : Nat → List Char → Except String (List Tok)
  | 0, _ => .error "lexer fuel exhausted"
  | _ + 1, [] => .ok []
  | fuel + 1, c :: cs =>
    if c.isWhitespace then lexAux fuel cs
    else if c = '(' then (Tok.lparen :: ·) <$> lexAux fuel cs
    else if c = ')' then (Tok.rparen :: ·) <$> lexAux fuel cs
    else if c = '+' then (Tok.plus :: ·) <$> lexAux fuel cs
    else if c = '-' then (Tok.minus :: ·) <$> lexAux fuel cs
    else if c = '/' then (Tok.slash :: ·) <$> lexAux fuel cs
    else if c = '%' then (Tok.percent :: ·) <$> lexAux fuel cs
    else if c = '*' then
      match cs with
      | '*' :: cs' => (Tok.dstar :: ·) <$> lexAux fuel cs'
      | _ => (Tok.star :: ·) <$> lexAux fuel cs
    else if c.isDigit then
      match lexNumTail [c] cs with
      | .error m => .error m
      | .ok (k, rest) => (Tok.num k :: ·) <$> lexAux fuel rest
    else .error "invalid syntax"

/-- Tokenize a whole string. -/
def lex (s : String) : Except String (List Tok) :=
  lexAux (s.length + 1) s.toList

mutual

/-- Modelled from the spec: `expr := term (('+'|'-') term)*` (§4.1). -/
def parseExpr : Nat → List Tok → Except String (PyAst × List Tok)
  | 0, _ => .error "parser fuel exhausted"
  | fuel + 1, ts => do
    let (t, ts') ← parseTerm fuel ts
    parseExprLoop fuel t ts'

/-- Left-associative continuation of `expr`. -/
def parseExprLoop : Nat → PyAst → List Tok → Except String (PyAst × List Tok)
  | 0, _, _ => .error "parser fuel exhausted"
  | fuel + 1, acc, .plus :: ts => do
    let (t, ts') ← parseTerm fuel ts
    parseExprLoop fuel (.BinOp acc .Add t) ts'
  | fuel + 1, acc, .minus :: ts => do
    let (t, ts') ← parseTerm fuel ts
    parseExprLoop fuel (.BinOp acc .Sub t) ts'
  | _ + 1, acc, ts => .ok (acc, ts)

/-- Modelled from the spec: `term := factor (('*'|'/'|'%') factor)*`. -/
def parseTerm : Nat → List Tok → Except String (PyAst × List Tok)
  | 0, _ => .error "parser fuel exhausted"
  | fuel + 1, ts => do
    let (f, ts') ← parseFactor fuel ts
    parseTermLoop fuel f ts'

/-- Left-associative continuation of `term`. -/
def parseTermLoop : Nat → PyAst → List Tok → Except String (PyAst × List Tok)
  | 0, _, _ => .error "parser fuel exhausted"
  | fuel + 1, acc, .star :: ts => do
    let (f, ts') ← parseFactor fuel ts
    parseTermLoop fuel (.BinOp acc .Mult f) ts'
  | fuel + 1, acc, .slash :: ts => do
    let (f, ts') ← parseFactor fuel ts
    parseTermLoop fuel (.BinOp acc .Div f) ts'
  | fuel + 1, acc, .percent :: ts => do
    let (f, ts') ← parseFactor fuel ts
    parseTermLoop fuel (.BinOp acc .Mod f) ts'
  | _ + 1, acc, ts => .ok (acc, ts)

/-- Modelled from the spec: `factor := unary ('**' unary)*`, with `**`
right-associative (§4.1 requires reproducing the right-associativity of
the source's native exponent operator). -/
def parseFactor : Nat → List Tok → Except String (PyAst × List Tok)
  | 0, _ => .error "parser fuel exhausted"
  | fuel + 1, ts => do
    let (u, ts') ← parseUnary fuel ts
    match ts' with
    | .dstar :: ts'' => do
      let (rhs, ts3) ← parseFactor fuel ts''
      .ok (.BinOp u .Pow rhs, ts3)
    | _ => .ok (u, ts')

/-- Modelled from the spec: `unary := ('+'|'-') unary | primary`. -/
def parseUnary : Nat → List Tok → Except String (PyAst × List Tok)
  | 0, _ => .error "parser fuel exhausted"
  | fuel + 1, .plus :: ts => do
    let (o, ts') ← parseUnary fuel ts
    .ok (.UnaryOp .UAdd o, ts')
  | fuel + 1, .minus :: ts => do
    let (o, ts') ← parseUnary fuel ts
    .ok (.UnaryOp .USub o, ts')
  | fuel + 1, ts => parsePrimary fuel ts

/-- Modelled from the spec: `primary := NUMBER | '(' expr ')'`. -/
def parsePrimary : Nat → List Tok → Except String (PyAst × List Tok)
  | 0, _ => .error "parser fuel exhausted"
  | _ + 1, .num c :: ts => .ok (.Constant c, ts)
  | fuel + 1, .lparen :: ts => do
    let (e, ts') ← parseExpr fuel ts
    match ts' with
    | .rparen :: ts'' => .ok (e, ts'')
    | _ => .error "closing parenthesis expected"
  | _ + 1, _ => .error "invalid syntax"

end

/-- Modelled from the spec: `ast.parse(expr, mode='eval')` — tokenize,
parse a complete `expr`, require the input to be exhausted, and wrap the
result in the `Expression` node, or fail with a syntax error (empty
input, trailing tokens, unbalanced parentheses, stray characters). -/
def ast_parse (s : String) : Except String PyAst := do
  let ts ← lex s
  let (e, rest) ← parseExpr (10 * (ts.length + 1)) ts
  match rest with
  | [] => .ok (.Expression e)
  | _ => .error "invalid syntax"

/-- `safe_eval` (source lines 28–73): parse, converting a `SyntaxError`
into a `ValueError`, then evaluate with `_eval`. -/
def safe_eval (expr : String) : Except PyErr PyVal :=
  safe_eval_core (ast_parse expr)

/-- Outcome of one line of the interactive loop. -/
inductive ReplOut where
  | emptyContinue
  | quitExit
  | onlyNumbers
  | answer (v : PyVal)
  | invalidSyntax
  | invalidExpr (msg : String)
  | mathError
  | otherError (msg : String)
  deriving DecidableEq, Repr

/-- Python's `str.strip()`: drop whitespace from both ends (written
over the character list so that it evaluates by kernel reduction). -/
def pyStrip (s : String) : String :=
  ⟨((s.data.dropWhile Char.isWhitespace).reverse.dropWhile Char.isWhitespace).reverse⟩

/-- Python's `str.lower()`, character by character. -/
def pyLower (s : String) : String :=
  ⟨s.data.map Char.toLower⟩

/-- The per-line body of `repl` (source lines 78–103; the `__main__`
prompt loop has the identical shape): strip the line; skip an empty
line; `quit`/`exit` (case-insensitive) leaves; any line containing an
alphabetic character is rejected with `'Only numbers and operators are
allowed'` before `safe_eval` is ever called; otherwise the line is
evaluated and the `except` clauses map each exception class to its
message, in source order (`SyntaxError`, `ValueError`,
`ZeroDivisionError`, `Exception`). -/
def repl_step (line : String) : ReplOut :=
  let s := pyStrip line
  if s = "" then .emptyContinue
  else if pyLower s = "quit" ∨ pyLower s = "exit" then .quitExit
  else if s.data.any Char.isAlpha then .onlyNumbers
  else
    match safe_eval s with
    | .ok v => .answer v
    | .error (.syntaxError _) => .invalidSyntax
    | .error (.valueError m) => .invalidExpr m
    | .error (.zeroDivisionError _) => .mathError
    | .error (.notRepresentable m) => .otherError m

/-! ## Predicates over trees -/

/-- Node kinds that `_eval` rejects as soon as it reaches them: every
node other than `Expression`/`BinOp`/`UnaryOp` and numeric or boolean
constants (booleans pass `_is_number` because `bool` is a subclass of
`int` in Python). -/
def disallowedRoot : PyAst → Bool
  | .Expression _ => false
  | .BinOp _ _ _ => false
  | .UnaryOp _ _ => false
  | .Constant c =>
    match c with
    | .int _ => false
    | .float _ => false
    | .bool _ => false
    | _ => true
  | _ => true

/-- The tree contains, along its evaluable spine, a node that `_eval`
rejects (an identifier, call, attribute access, subscript, comparison,
logical operator, collection display, or string/`None` constant).  The
rejected kinds' own children need no traversal: `_eval` never descends
into them. -/
def containsDisallowed : PyAst → Bool
  | .Expression b => containsDisallowed b
  | .BinOp l _ r => containsDisallowed l || containsDisallowed r
  | .UnaryOp _ o => containsDisallowed o
  | t => disallowedRoot t

/-- Binary operators outside the whitelist of `_eval`. -/
def badBinOp : BinOpKind → Bool
  | .Add | .Sub | .Mult | .Div | .Mod | .Pow => false
  | _ => true

/-- Unary operators outside the whitelist of `_eval`. -/
def badUnaryOp : UnaryOpKind → Bool
  | .UAdd | .USub => false
  | _ => true

/-- The tree contains, along its evaluable spine, an operator outside
the whitelists. -/
def containsUnsupportedOp : PyAst → Bool
  | .Expression b => containsUnsupportedOp b
  | .BinOp l op r => badBinOp op || containsUnsupportedOp l || containsUnsupportedOp r
  | .UnaryOp op o => badUnaryOp op || containsUnsupportedOp o
  | _ => false

end Calculator

deriving instance DecidableEq for Except

namespace Calculator

/-! ## Helper lemmas -/

/-- An operator outside the whitelist makes `applyBin` fail with the
fixed `ValueError`, whatever the operand values. -/
theorem applyBin_unsupported (op : BinOpKind) (h : badBinOp op = true) (l r : PyVal) :
    applyBin op l r = .error (.valueError "Unsupported binary operator") := by
  cases op <;> first | rfl | exact absurd h (by decide)

/-- An operator outside the unary whitelist makes `applyUnary` fail with
the fixed `ValueError`. -/
theorem applyUnary_unsupported (op : UnaryOpKind) (h : badUnaryOp op = true) (v : PyVal) :
    applyUnary op v = .error (.valueError "Unsupported unary operator") := by
  cases op <;> first | rfl | exact absurd h (by decide)

end Calculator

namespace Calculator

/-- Errors raised by `_is_number` are always `ValueError`s. -/
theorem is_number_err_kind (t : PyAst) (e : PyErr) (h : is_number t = .error e) :
    e.isSyntaxErr = false := by
  cases t with
  | Constant c =>
    cases c <;> simp only [is_number] at h <;>
      first
        | exact Except.noConfusion h
        | (injection h with h2; subst h2; rfl)
  | _ =>
    simp only [is_number] at h
    injection h with h2
    subst h2
    rfl

/-- Errors raised by division are `ZeroDivisionError`s. -/
theorem pyDiv_err_kind (l r : PyVal) (e : PyErr) (h : pyDiv l r = .error e) :
    e.isSyntaxErr = false := by
  unfold pyDiv at h
  split at h
  · injection h with h2; subst h2; rfl
  · exact Except.noConfusion h

/-- Errors raised by modulo are `ZeroDivisionError`s. -/
theorem pyMod_err_kind (l r : PyVal) (e : PyErr) (h : pyMod l r = .error e) :
    e.isSyntaxErr = false := by
  unfold pyMod at h
  split at h
  · injection h with h2; subst h2; rfl
  · split at h <;> exact Except.noConfusion h

/-- Errors raised by power are never `SyntaxError`s. -/
theorem pyPow_err_kind (l r : PyVal) (e : PyErr) (h : pyPow l r = .error e) :
    e.isSyntaxErr = false := by
  unfold pyPow at h
  split at h
  · split at h
    · exact Except.noConfusion h
    · split at h
      · injection h with h2; subst h2; rfl
      · exact Except.noConfusion h
  · dsimp only at h
    split at h
    · split at h
      · injection h with h2; subst h2; rfl
      · exact Except.noConfusion h
    · injection h with h2; subst h2; rfl

/-- Errors raised by the binary dispatch of `_eval` are `ValueError`s or
`ZeroDivisionError`s, never `SyntaxError`s. -/
theorem applyBin_err_kind (op : BinOpKind) (l r : PyVal) (e : PyErr)
    (h : applyBin op l r = .error e) : e.isSyntaxErr = false := by
  cases op <;>
    first
      | exact Except.noConfusion h
      | exact pyDiv_err_kind l r e h
      | exact pyMod_err_kind l r e h
      | exact pyPow_err_kind l r e h
      | (injection h with h2; subst h2; rfl)

/-- Errors raised by the unary dispatch of `_eval` are `ValueError`s. -/
theorem applyUnary_err_kind (op : UnaryOpKind) (v : PyVal) (e : PyErr)
    (h : applyUnary op v = .error e) : e.isSyntaxErr = false := by
  cases op <;>
    first
      | exact Except.noConfusion h
      | (injection h with h2; subst h2; rfl)

/-- `_eval` never raises a `SyntaxError`, on any tree. -/
theorem evalAst_err_kind : (t : PyAst) → (e : PyErr) → evalAst t = .error e →
    e.isSyntaxErr = false
  | .Expression b, e, h => evalAst_err_kind b e h
  | .BinOp l op r, e, h => by
    simp only [evalAst] at h
    cases hl : evalAst l with
    | error e' =>
      rw [hl] at h
      injection h with h2
      exact h2 ▸ evalAst_err_kind l e' hl
    | ok lv =>
      rw [hl] at h
      cases hr : evalAst r with
      | error e' =>
        rw [hr] at h
        injection h with h2
        exact h2 ▸ evalAst_err_kind r e' hr
      | ok rv =>
        rw [hr] at h
        exact applyBin_err_kind op lv rv e h
  | .UnaryOp op o, e, h => by
    simp only [evalAst] at h
    cases ho : evalAst o with
    | error e' =>
      rw [ho] at h
      injection h with h2
      exact h2 ▸ evalAst_err_kind o e' ho
    | ok v =>
      rw [ho] at h
      exact applyUnary_err_kind op v e h
  | .Constant c, e, h => is_number_err_kind (.Constant c) e h
  | .Name i, e, h => is_number_err_kind (.Name i) e h
  | .Call f a, e, h => is_number_err_kind (.Call f a) e h
  | .Attribute v a, e, h => is_number_err_kind (.Attribute v a) e h
  | .Subscript v i, e, h => is_number_err_kind (.Subscript v i) e h
  | .Compare l c, e, h => is_number_err_kind (.Compare l c) e h
  | .BoolOp vs, e, h => is_number_err_kind (.BoolOp vs) e h
  | .ListLit es, e, h => is_number_err_kind (.ListLit es) e h
  | .TupleLit es, e, h => is_number_err_kind (.TupleLit es) e h
  | .DictLit ks vs, e, h => is_number_err_kind (.DictLit ks vs) e h

/-- `safe_eval` never lets a `SyntaxError` cross its boundary. -/
theorem safe_eval_err_kind (s : String) (e : PyErr) (h : safe_eval s = .error e) :
    e.isSyntaxErr = false := by
  unfold safe_eval at h
  cases hp : ast_parse s with
  | error m =>
    rw [hp] at h
    simp only [safe_eval_core] at h
    injection h with h2
    subst h2
    rfl
  | ok t =>
    rw [hp] at h
    exact evalAst_err_kind t e h

/-- A tree whose evaluable spine holds a node `_eval` rejects never
evaluates to a value. -/
theorem evalAst_err_of_disallowed : (t : PyAst) → containsDisallowed t = true →
    ∃ e, evalAst t = .error e
  | .Expression b, h => by
    simp only [evalAst]
    exact evalAst_err_of_disallowed b h
  | .BinOp l op r, h => by
    simp only [containsDisallowed, Bool.or_eq_true] at h
    simp only [evalAst]
    cases hl : evalAst l with
    | error e => exact ⟨e, rfl⟩
    | ok lv =>
      cases hr : evalAst r with
      | error e => exact ⟨e, rfl⟩
      | ok rv =>
        exfalso
        cases h with
        | inl hdl =>
          obtain ⟨e, he⟩ := evalAst_err_of_disallowed l hdl
          rw [hl] at he
          exact Except.noConfusion he
        | inr hdr =>
          obtain ⟨e, he⟩ := evalAst_err_of_disallowed r hdr
          rw [hr] at he
          exact Except.noConfusion he
  | .UnaryOp op o, h => by
    simp only [containsDisallowed] at h
    simp only [evalAst]
    cases ho : evalAst o with
    | error e => exact ⟨e, rfl⟩
    | ok v =>
      exfalso
      obtain ⟨e, he⟩ := evalAst_err_of_disallowed o h
      rw [ho] at he
      exact Except.noConfusion he
  | .Constant c, h => by
    cases c with
    | int n => exact Bool.noConfusion h
    | float q => exact Bool.noConfusion h
    | bool b => exact Bool.noConfusion h
    | str s => exact ⟨_, rfl⟩
    | pynone => exact ⟨_, rfl⟩
  | .Name i, _ => ⟨_, rfl⟩
  | .Call f a, _ => ⟨_, rfl⟩
  | .Attribute v a, _ => ⟨_, rfl⟩
  | .Subscript v i, _ => ⟨_, rfl⟩
  | .Compare l c, _ => ⟨_, rfl⟩
  | .BoolOp vs, _ => ⟨_, rfl⟩
  | .ListLit es, _ => ⟨_, rfl⟩
  | .TupleLit es, _ => ⟨_, rfl⟩
  | .DictLit ks vs, _ => ⟨_, rfl⟩

/-- A tree whose evaluable spine holds an operator outside the
whitelists never evaluates to a value. -/
theorem evalAst_err_of_unsupported : (t : PyAst) → containsUnsupportedOp t = true →
    ∃ e, evalAst t = .error e
  | .Expression b, h => by
    simp only [evalAst]
    exact evalAst_err_of_unsupported b h
  | .BinOp l op r, h => by
    simp only [containsUnsupportedOp, Bool.or_eq_true] at h
    simp only [evalAst]
    cases hl : evalAst l with
    | error e => exact ⟨e, rfl⟩
    | ok lv =>
      cases hr : evalAst r with
      | error e => exact ⟨e, rfl⟩
      | ok rv =>
        rcases h with (hop | hdl) | hdr
        · exact ⟨_, applyBin_unsupported op hop lv rv⟩
        · exfalso
          obtain ⟨e, he⟩ := evalAst_err_of_unsupported l hdl
          rw [hl] at he
          exact Except.noConfusion he
        · exfalso
          obtain ⟨e, he⟩ := evalAst_err_of_unsupported r hdr
          rw [hr] at he
          exact Except.noConfusion he
  | .UnaryOp op o, h => by
    simp only [containsUnsupportedOp, Bool.or_eq_true] at h
    simp only [evalAst]
    cases ho : evalAst o with
    | error e => exact ⟨e, rfl⟩
    | ok v =>
      rcases h with hop | hdo
      · exact ⟨_, applyUnary_unsupported op hop v⟩
      · exfalso
        obtain ⟨e, he⟩ := evalAst_err_of_unsupported o hdo
        rw [ho] at he
        exact Except.noConfusion he
  | .Constant c, h => Bool.noConfusion h
  | .Name i, h => Bool.noConfusion h
  | .Call f a, h => Bool.noConfusion h
  | .Attribute v a, h => Bool.noConfusion h
  | .Subscript v i, h => Bool.noConfusion h
  | .Compare l c, h => Bool.noConfusion h
  | .BoolOp vs, h => Bool.noConfusion h
  | .ListLit es, h => Bool.noConfusion h
  | .TupleLit es, h => Bool.noConfusion h
  | .DictLit ks vs, h => Bool.noConfusion h

end Calculator

namespace Calculator

/-! ## Claim theorems -/

/-- C1 (amended): for every parse outcome that is either a syntax
failure (as for the statements `import os` and `2; 3`, which cannot
parse in `mode='eval'`) or a tree whose evaluable spine contains a node
`_eval` rejects — an identifier, call, attribute access, subscript,
comparison, logical operator, collection display, or string/`None`
constant — `safe_eval` signals an error and never returns a value.
Boolean literals are the exception the amendment carves out: because
`bool` is a subclass of `int` in Python, `_is_number` accepts them (see
the counterexample). -/
theorem c1_nonarithmetic_inputs_never_evaluate :
    ∀ p : Except String PyAst,
      ((∃ m, p = .error m) ∨ (∃ t, p = .ok t ∧ containsDisallowed t = true)) →
      ∃ e, safe_eval_core p = .error e := by
  intro p h
  rcases h with ⟨m, rfl⟩ | ⟨t, rfl, ht⟩
  · exact ⟨_, rfl⟩
  · exact evalAst_err_of_disallowed t ht

/-- Witness for C1: the tree of `__import__('os')` (a call applied to a
name) is rejected, and a parse failure is rejected. -/
theorem c1_nonarithmetic_inputs_never_evaluate_witness :
    (∃ e, safe_eval_core (.ok (.Call (.Name "__import__") [.Constant (.str "os")])) = .error e)
    ∧ (∃ e, safe_eval_core (.error "invalid syntax") = .error e) :=
  ⟨c1_nonarithmetic_inputs_never_evaluate _ (.inr ⟨_, rfl, rfl⟩),
   c1_nonarithmetic_inputs_never_evaluate _ (.inl ⟨_, rfl⟩)⟩

/-- C1 counterexample: `ast.parse("1+True", mode='eval')` yields this
tree; the input contains a boolean literal, yet `safe_eval` signals no
error and returns the numeric value 2, because `isinstance(True, (int,
float))` holds in Python. -/
theorem c1_boolean_literal_counterexample :
    safe_eval_core (.ok (.Expression (.BinOp (.Constant (.int 1)) .Add (.Constant (.bool true)))))
      = .ok (.intV 2) := rfl

/-- C2 (amended): the letter-rejection pre-check lives in the
interactive loops, not in `safe_eval`: a stripped line that is nonempty,
is not `quit`/`exit` (case-insensitive), and contains an alphabetic
character is answered with the rejection message before `safe_eval` is
ever called; `safe_eval` itself — the sole core function the loops
call — performs no such check, and `1e3` handed to it directly
evaluates to the float 1000. -/
theorem c2_letter_rejection_in_repl :
    (∀ s : String, pyStrip s ≠ "" →
        ¬(pyLower (pyStrip s) = "quit" ∨ pyLower (pyStrip s) = "exit") →
        (pyStrip s).data.any Char.isAlpha = true → repl_step s = .onlyNumbers)
    ∧ safe_eval "1e3" = .ok (.floatV 1000) := by
  constructor
  · intro s h1 h2 h3
    simp only [repl_step]
    rw [if_neg h1, if_neg h2, if_pos h3]
  · have h : safe_eval "1e3"
        = .ok (.floatV (((1 : Nat) : ℚ) * qzpow 10 ((1 : Int) * ((3 : Nat) : Int)))) := rfl
    rw [h]
    simp only [Except.ok.injEq, PyVal.floatV.injEq]
    norm_num [qzpow]
    rw [show Int.toNat 3 = 3 from rfl]
    norm_num

/-- Witness for C2: the line `" 1a "` is rejected by the loop. -/
theorem c2_letter_rejection_in_repl_witness :
    repl_step " 1a " = .onlyNumbers :=
  c2_letter_rejection_in_repl.1 " 1a " (by decide) (by decide) (by decide)

/-- C2 counterexample: `safe_eval`, the sole function the REPL/CLI
collaborators call (and which the CLI-argument path calls with no
letter pre-check at all), does not reject the alphabetic input `1e3`
with a validation error — it parses and evaluates it to 1000.0. -/
theorem c2_scientific_notation_counterexample :
    safe_eval "1e3" = .ok (.floatV 1000) := by
  have h : safe_eval "1e3"
      = .ok (.floatV (((1 : Nat) : ℚ) * qzpow 10 ((1 : Int) * ((3 : Nat) : Int)))) := rfl
  rw [h]
  simp only [Except.ok.injEq, PyVal.floatV.injEq]
  norm_num [qzpow]
  rw [show Int.toNat 3 = 3 from rfl]
  norm_num

/-- C3: applying `/` or `%` to any operands whose right value is exactly
zero (integer `0`, float `0.0`, or `False`) signals `ZeroDivisionError`
— never a crash, never a value — and the inputs `5 / 0` and `5 % 0`
both do so end to end. -/
theorem c3_division_modulo_by_zero :
    (∀ l r : PyVal, r.isZero = true →
        applyBin .Div l r = .error (.zeroDivisionError "division by zero")
        ∧ applyBin .Mod l r = .error (.zeroDivisionError "integer modulo by zero"))
    ∧ safe_eval "5 / 0" = .error (.zeroDivisionError "division by zero")
    ∧ safe_eval "5 % 0" = .error (.zeroDivisionError "integer modulo by zero") := by
  refine ⟨?_, rfl, rfl⟩
  intro l r hr
  have hz : r.toQ = 0 := of_decide_eq_true hr
  constructor
  · show pyDiv l r = _
    simp [pyDiv, hz]
  · show pyMod l r = _
    simp [pyMod, hz]

/-- Witness for C3: division by the integer zero and modulo by the float
zero. -/
theorem c3_division_modulo_by_zero_witness :
    applyBin .Div (.intV 5) (.intV 0) = .error (.zeroDivisionError "division by zero")
    ∧ applyBin .Mod (.intV 5) (.floatV 0) = .error (.zeroDivisionError "integer modulo by zero") :=
  ⟨(c3_division_modulo_by_zero.1 (.intV 5) (.intV 0) (by decide)).1,
   (c3_division_modulo_by_zero.1 (.intV 5) (.floatV 0) (by decide)).2⟩

/-- C4 (amended): string and `None` constants and collection displays
are rejected by `_is_number`, so no string or collection ever evaluates
to a value; but boolean leaves are representable by the reference parser
and evaluate to themselves, because `bool` is a subclass of `int` in
Python (see the counterexample). -/
theorem c4_leaf_literals :
    (∀ s : String, evalAst (.Constant (.str s)) = .error (.valueError "Only numbers are allowed"))
    ∧ evalAst (.Constant .pynone) = .error (.valueError "Only numbers are allowed")
    ∧ (∀ es : List PyAst, evalAst (.ListLit es) = .error (.valueError "Expected a numeric literal"))
    ∧ (∀ es : List PyAst, evalAst (.TupleLit es) = .error (.valueError "Expected a numeric literal"))
    ∧ (∀ b : Bool, evalAst (.Constant (.bool b)) = .ok (.boolV b)) :=
  ⟨fun _ => rfl, rfl, fun _ => rfl, fun _ => rfl, fun _ => rfl⟩

/-- Witness for C4: the string constant `'os'` and the empty list
display are rejected. -/
theorem c4_leaf_literals_witness :
    evalAst (.Constant (.str "os")) = .error (.valueError "Only numbers are allowed")
    ∧ evalAst (.ListLit []) = .error (.valueError "Expected a numeric literal") :=
  ⟨c4_leaf_literals.1 "os", c4_leaf_literals.2.2.1 []⟩

/-- C4 counterexample: `ast.parse("True", mode='eval')` yields this
tree — a boolean leaf is representable — and evaluating it returns the
non-numeric boolean value `True`, contradicting the claim that
evaluation can never return a boolean. -/
theorem c4_boolean_leaf_counterexample :
    safe_eval_core (.ok (.Expression (.Constant (.bool true)))) = .ok (.boolV true) := rfl

/-- C5 (amended): division of two integers always yields a float
(`4 / 2` is the float 2.0); `+`, `-`, `*`, `%` and `**` with a
nonnegative exponent preserve integer-ness on two integer operands
(`4 * 2` is the integer 8) and yield a float when a float operand is
involved; the exception the amendment carves out is `**` with a
negative integer exponent, which yields a float on two integer operands
(see the counterexample). -/
theorem c5_promotion_rules :
    (∀ a b : Int, b ≠ 0 →
        applyBin .Div (.intV a) (.intV b) = .ok (.floatV ((a : ℚ) / (b : ℚ))))
    ∧ (∀ a b : Int,
        applyBin .Add (.intV a) (.intV b) = .ok (.intV (a + b))
        ∧ applyBin .Sub (.intV a) (.intV b) = .ok (.intV (a - b))
        ∧ applyBin .Mult (.intV a) (.intV b) = .ok (.intV (a * b)))
    ∧ (∀ a b : Int, b ≠ 0 →
        applyBin .Mod (.intV a) (.intV b) = .ok (.intV (Int.fmod a b)))
    ∧ (∀ a b : Int, 0 ≤ b →
        applyBin .Pow (.intV a) (.intV b) = .ok (.intV (a ^ b.toNat)))
    ∧ (∀ a b : Int, b < 0 → a ≠ 0 →
        applyBin .Pow (.intV a) (.intV b) = .ok (.floatV (qzpow (a : ℚ) b)))
    ∧ (∀ (a : Int) (q : ℚ),
        applyBin .Add (.intV a) (.floatV q) = .ok (.floatV ((a : ℚ) + q))
        ∧ applyBin .Add (.floatV q) (.intV a) = .ok (.floatV (q + (a : ℚ)))
        ∧ applyBin .Sub (.intV a) (.floatV q) = .ok (.floatV ((a : ℚ) - q))
        ∧ applyBin .Sub (.floatV q) (.intV a) = .ok (.floatV (q - (a : ℚ)))
        ∧ applyBin .Mult (.intV a) (.floatV q) = .ok (.floatV ((a : ℚ) * q))
        ∧ applyBin .Mult (.floatV q) (.intV a) = .ok (.floatV (q * (a : ℚ))))
    ∧ safe_eval "4 / 2" = .ok (.floatV 2)
    ∧ safe_eval "4 * 2" = .ok (.intV 8) := by
  refine ⟨?_, fun a b => ⟨rfl, rfl, rfl⟩, ?_, ?_, ?_,
         fun a q => ⟨rfl, rfl, rfl, rfl, rfl, rfl⟩, ?_, rfl⟩
  · intro a b hb
    have hbq : ((b : ℚ)) ≠ 0 := Int.cast_ne_zero.mpr hb
    show pyDiv (.intV a) (.intV b) = _
    simp [pyDiv, PyVal.toQ, hbq]
  · intro a b hb
    have hbq : ((b : ℚ)) ≠ 0 := Int.cast_ne_zero.mpr hb
    show pyMod (.intV a) (.intV b) = _
    simp [pyMod, PyVal.toQ, PyVal.asInt?, hbq]
  · intro a b hb
    show pyPow (.intV a) (.intV b) = _
    simp [pyPow, PyVal.asInt?, hb]
  · intro a b hb ha
    show pyPow (.intV a) (.intV b) = _
    simp [pyPow, PyVal.asInt?, not_le.mpr hb, ha]
  · have h : safe_eval "4 / 2"
        = .ok (.floatV ((((4 : Nat) : Int) : ℚ) / (((2 : Nat) : Int) : ℚ))) := rfl
    rw [h]
    simp only [Except.ok.injEq, PyVal.floatV.injEq]
    norm_num

/-- Witness for C5: concrete instances of the promotion rules. -/
theorem c5_promotion_rules_witness :
    applyBin .Div (.intV 4) (.intV 2) = .ok (.floatV (((4 : Int) : ℚ) / ((2 : Int) : ℚ)))
    ∧ applyBin .Mod (.intV 7) (.intV 3) = .ok (.intV (Int.fmod 7 3))
    ∧ applyBin .Pow (.intV 2) (.intV 3) = .ok (.intV (2 ^ (3 : Int).toNat))
    ∧ applyBin .Pow (.intV 2) (.intV (-2)) = .ok (.floatV (qzpow ((2 : Int) : ℚ) (-2))) :=
  ⟨c5_promotion_rules.1 4 2 (by decide),
   c5_promotion_rules.2.2.1 7 3 (by decide),
   c5_promotion_rules.2.2.2.1 2 3 (by decide),
   c5_promotion_rules.2.2.2.2.1 2 (-2) (by decide) (by decide)⟩

/-- C5 counterexample: `2 ** -2` has two integer-valued operands but
evaluates to the float 0.25, so the non-division operators do not
always preserve integer-ness on integer operands. -/
theorem c5_negative_exponent_counterexample :
    safe_eval "2 ** -2" = .ok (.floatV (1 / 4)) := by
  have h : safe_eval "2 ** -2"
      = .ok (.floatV (qzpow ((((2 : Nat) : Int)) : ℚ) (-((2 : Nat) : Int)))) := rfl
  rw [h]
  simp only [Except.ok.injEq, PyVal.floatV.injEq]
  norm_num [qzpow]
  rw [show Int.toNat 2 = 2 from rfl]
  norm_num

/-- C6: the power operator is right-associative: `2 ** 3 ** 2`
evaluates to `2 ** (3 ** 2) = 512`, not 64. -/
theorem c6_pow_right_associative :
    safe_eval "2 ** 3 ** 2" = .ok (.intV 512)
    ∧ safe_eval "2 ** 3 ** 2" ≠ .ok (.intV 64) :=
  ⟨rfl, by decide⟩

/-- C7: the modulo operator follows the floor-based convention
(`Int.fmod`, the unique remainder for floor division), so for a positive
divisor the result is nonnegative and below the divisor — the sign
follows the divisor — and `-7 % 3` evaluates to 2. -/
theorem c7_modulo_sign_convention :
    (∀ a b : Int, b ≠ 0 →
        applyBin .Mod (.intV a) (.intV b) = .ok (.intV (Int.fmod a b)))
    ∧ (∀ a b : Int, Int.fmod a b = a - b * Int.fdiv a b)
    ∧ (∀ a b : Int, 0 < b → 0 ≤ Int.fmod a b ∧ Int.fmod a b < b)
    ∧ safe_eval "-7 % 3" = .ok (.intV 2) := by
  refine ⟨?_, Int.fmod_def, fun a b hb => ⟨Int.fmod_nonneg' a hb, Int.fmod_lt_of_pos a hb⟩, rfl⟩
  intro a b hb
  have hbq : ((b : ℚ)) ≠ 0 := Int.cast_ne_zero.mpr hb
  show pyMod (.intV a) (.intV b) = _
  simp [pyMod, PyVal.toQ, PyVal.asInt?, hbq]

/-- Witness for C7: `-7 % 3` through the operator dispatch, with the
sign bounds at divisor 3. -/
theorem c7_modulo_sign_convention_witness :
    applyBin .Mod (.intV (-7)) (.intV 3) = .ok (.intV (Int.fmod (-7) 3))
    ∧ (0 ≤ Int.fmod (-7) 3 ∧ Int.fmod (-7) 3 < 3) :=
  ⟨c7_modulo_sign_convention.1 (-7) 3 (by decide),
   c7_modulo_sign_convention.2.2.1 (-7) 3 (by decide)⟩

/-- C8: multiplication binds tighter than addition and parentheses
override precedence: `2 + 3 * 4` evaluates to 14 and `(2 + 3) * 4`
to 20. -/
theorem c8_precedence_and_parentheses :
    safe_eval "2 + 3 * 4" = .ok (.intV 14)
    ∧ safe_eval "(2 + 3) * 4" = .ok (.intV 20) :=
  ⟨rfl, rfl⟩

/-- C9: `safe_eval` never lets a `SyntaxError` cross its boundary: the
evaluator raises no `SyntaxError` on any tree, a parse failure is
re-raised as a `ValueError` whose message begins with `Syntax error: `,
no error escaping `safe_eval` is a `SyntaxError`, and consequently the
`except SyntaxError` handler of the loop — the `Invalid expression:
syntax error` message — is unreachable. -/
theorem c9_syntax_error_never_escapes :
    (∀ (t : PyAst) (e : PyErr), evalAst t = .error e → e.isSyntaxErr = false)
    ∧ (∀ m : String, safe_eval_core (.error m) = .error (.valueError ("Syntax error: " ++ m)))
    ∧ (∀ (s : String) (e : PyErr), safe_eval s = .error e → e.isSyntaxErr = false)
    ∧ (∀ s : String, repl_step s ≠ .invalidSyntax) := by
  refine ⟨evalAst_err_kind, fun m => rfl, safe_eval_err_kind, ?_⟩
  intro s
  by_cases h1 : pyStrip s = ""
  · simp only [repl_step]
    rw [if_pos h1]
    exact fun hh => ReplOut.noConfusion hh
  · by_cases h2 : pyLower (pyStrip s) = "quit" ∨ pyLower (pyStrip s) = "exit"
    · simp only [repl_step]
      rw [if_neg h1, if_pos h2]
      exact fun hh => ReplOut.noConfusion hh
    · by_cases h3 : (pyStrip s).data.any Char.isAlpha = true
      · simp only [repl_step]
        rw [if_neg h1, if_neg h2, if_pos h3]
        exact fun hh => ReplOut.noConfusion hh
      · simp only [repl_step]
        rw [if_neg h1, if_neg h2, if_neg h3]
        cases hse : safe_eval (pyStrip s) with
        | ok v => exact fun hh => ReplOut.noConfusion hh
        | error e =>
          cases e with
          | valueError m => exact fun hh => ReplOut.noConfusion hh
          | zeroDivisionError m => exact fun hh => ReplOut.noConfusion hh
          | notRepresentable m => exact fun hh => ReplOut.noConfusion hh
          | syntaxError m =>
            have hk := safe_eval_err_kind (pyStrip s) (.syntaxError m) hse
            exact absurd hk (by simp [PyErr.isSyntaxErr])

/-- Witness for C9: concrete instances of each conjunct. -/
theorem c9_syntax_error_never_escapes_witness :
    PyErr.isSyntaxErr (.valueError "Expected a numeric literal") = false
    ∧ safe_eval_core (.error "invalid syntax")
        = .error (.valueError ("Syntax error: " ++ "invalid syntax"))
    ∧ PyErr.isSyntaxErr (.valueError ("Syntax error: " ++ "invalid syntax")) = false
    ∧ repl_step "(2 + 3" ≠ .invalidSyntax :=
  ⟨c9_syntax_error_never_escapes.1 (.Name "a") (.valueError "Expected a numeric literal") rfl,
   c9_syntax_error_never_escapes.2.1 "invalid syntax",
   c9_syntax_error_never_escapes.2.2.1 "2 + a"
     (.valueError ("Syntax error: " ++ "invalid syntax")) rfl,
   c9_syntax_error_never_escapes.2.2.2 "(2 + 3"⟩

/-- C10 (amended): a tree containing an operator outside the whitelists
(`//`, `<<`, `>>`, `|`, `&`, `^`, `@`, `~`, `not`) never evaluates to a
value, and when the operand evaluations themselves raise nothing the
error is exactly the `Unsupported binary operator` / `Unsupported unary
operator` `ValueError` — the whitelist is enforced during evaluation;
but an error raised while evaluating an operand propagates first, so
the signalled error is not always that `ValueError` (see the
counterexample). -/
theorem c10_operator_whitelist :
    (∀ t : PyAst, containsUnsupportedOp t = true → ∃ e, evalAst t = .error e)
    ∧ (∀ (op : BinOpKind) (l r : PyAst) (lv rv : PyVal), badBinOp op = true →
        evalAst l = .ok lv → evalAst r = .ok rv →
        evalAst (.BinOp l op r) = .error (.valueError "Unsupported binary operator"))
    ∧ (∀ (op : UnaryOpKind) (o : PyAst) (v : PyVal), badUnaryOp op = true →
        evalAst o = .ok v →
        evalAst (.UnaryOp op o) = .error (.valueError "Unsupported unary operator")) := by
  refine ⟨evalAst_err_of_unsupported, ?_, ?_⟩
  · intro op l r lv rv hop hl hr
    simp only [evalAst, hl, hr]
    exact applyBin_unsupported op hop lv rv
  · intro op o v hop ho
    simp only [evalAst, ho]
    exact applyUnary_unsupported op hop v

/-- Witness for C10: the trees of `1 << 2` and `~5`. -/
theorem c10_operator_whitelist_witness :
    (∃ e, evalAst (.BinOp (.Constant (.int 1)) .LShift (.Constant (.int 2))) = .error e)
    ∧ evalAst (.BinOp (.Constant (.int 1)) .LShift (.Constant (.int 2)))
        = .error (.valueError "Unsupported binary operator")
    ∧ evalAst (.UnaryOp .Invert (.Constant (.int 5)))
        = .error (.valueError "Unsupported unary operator") :=
  ⟨c10_operator_whitelist.1 _ rfl,
   c10_operator_whitelist.2.1 .LShift _ _ (.intV 1) (.intV 2) rfl rfl rfl,
   c10_operator_whitelist.2.2 .Invert _ (.intV 5) rfl rfl⟩

/-- C10 counterexample: the tree of `1 / 0 << 2` contains the
non-whitelisted operator `<<`, yet `_eval` signals `ZeroDivisionError`
(raised while evaluating the left operand), not the claimed
`ValueError`. -/
theorem c10_zero_division_precedes_counterexample :
    containsUnsupportedOp
        (.BinOp (.BinOp (.Constant (.int 1)) .Div (.Constant (.int 0))) .LShift
          (.Constant (.int 2))) = true
    ∧ evalAst
        (.BinOp (.BinOp (.Constant (.int 1)) .Div (.Constant (.int 0))) .LShift
          (.Constant (.int 2)))
        = .error (.zeroDivisionError "division by zero") :=
  ⟨rfl, rfl⟩

end Calculator
